import Mathlib

set_option maxRecDepth 100000

/-!
Shallow embedding of the FPL live-sync update script
(`src/updateScript.js` and its richer variant: `checkIfGameIsLive`,
`validateData`, `updateDatabase`, the five merge-upsert table updaters and
the live `updatePlayerStats` batch).

Modelling conventions:
* Network fetches are elided: each function takes the already-fetched,
  JSON-decoded payload as an argument (the claims under study are about the
  pure decision logic and the database effects, not about transport).
* JavaScript truthiness coercions (`x || null`, `x || 0`, `x || false`,
  `x || 'a'`) are modelled explicitly on `Option` values; recall that in
  JavaScript the number `0`, the empty string and `undefined`/`null` are all
  falsy, so `0 || null` evaluates to `null`.
* `parseFloat` operates on IEEE floats; it is abstracted as a parameter
  `pf : String -> Option Rat` (with `none` standing for `NaN`, which is
  falsy).  All statements hold for every such parse function.
* SQL tables are modelled as partial maps `Nat -> Option row` keyed by the
  source primary key `id`; a `MERGE` statement becomes a pure function on
  the map, and the `GETUTCDATE()` timestamp becomes an explicit `now : Nat`
  argument.  A failing SQL request (the `err` branch of a tedious request
  callback) is injected through a per-record failure oracle `fails`.
-/

/-- JavaScript `x || null` on an optional number: `0`, `null` and
`undefined` are falsy, so they all collapse to `null`. -/
def jsOrNullInt : Option Int → Option Int
  | some v => if v = 0 then none else some v
  | none => none

/-- JavaScript `x || null` on an optional rational (used for `parseFloat`
results; `none` stands for `NaN`). -/
def jsOrNullRat : Option Rat → Option Rat
  | some v => if v = 0 then none else some v
  | none => none

/-- JavaScript `x ? e : null` on an optional string: the empty string is
falsy. -/
def jsOrNullStr : Option String → Option String
  | some s => if s = "" then none else some s
  | none => none

/-- JavaScript `x || 0` on an optional number. -/
def jsOrZero : Option Int → Int
  | some v => v
  | none => 0

/-- JavaScript `x || 0` on an optional rational (`parseFloat(s) || 0`). -/
def jsOrZeroRat : Option Rat → Rat
  | some v => v
  | none => 0

/-- JavaScript `x || false` on an optional boolean. -/
def jsOrFalse : Option Bool → Bool
  | some b => b
  | none => false

/-- JavaScript `x || d` on an optional string with a non-empty default
(suitable for `player.status || 'a'`). -/
def jsOrDefaultStr (d : String) : Option String → String
  | some s => if s = "" then d else s
  | none => none |>.getD d

/-- JavaScript truthiness of an optional boolean field (used by
`events.find(event => event.is_current)`). -/
def jsTruthy : Option Bool → Bool
  | some b => b
  | none => false

/-! ## Input records (decoded JSON payloads) -/

/-- One entry of `bootstrap-static.events` (a gameweek), with the fields the
script reads.  Fields that the script guards with `|| ...` are optional. -/
structure EventIn where
  id : Nat
  name : String
  deadline_time : Option String
  average_entry_score : Option Int
  finished : Option Bool
  data_checked : Option Bool
  highest_scoring_entry : Option Int
  highest_score : Option Int
  is_previous : Option Bool
  is_current : Option Bool
  is_next : Option Bool
  most_selected : Option Int
  most_transferred_in : Option Int
  top_element : Option Int
  transfers_made : Option Int
  most_captained : Option Int
  most_vice_captained : Option Int
  deriving DecidableEq

/-- One entry of the fixtures payload, with the fields the script reads. -/
structure FixtureIn where
  id : Nat
  code : Int
  event : Option Int
  finished : Option Bool
  finished_provisional : Option Bool
  kickoff_time : Option String
  minutes : Option Int
  started : Option Bool
  team_a : Nat
  team_h : Nat
  team_a_score : Option Int
  team_h_score : Option Int
  team_a_difficulty : Option Int
  team_h_difficulty : Option Int
  pulse_id : Option Int
  deriving DecidableEq

/-- One entry of `bootstrap-static.teams`. -/
structure TeamIn where
  id : Nat
  name : String
  short_name : String
  code : Int
  position : Option Int
  strength : Option Int
  strength_overall_home : Option Int
  strength_overall_away : Option Int
  strength_attack_home : Option Int
  strength_attack_away : Option Int
  strength_defence_home : Option Int
  strength_defence_away : Option Int
  pulse_id : Option Int
  deriving DecidableEq

/-- One entry of `bootstrap-static.element_types` (position types). -/
structure ElementTypeIn where
  id : Nat
  plural_name : String
  plural_name_short : String
  singular_name : String
  singular_name_short : String
  squad_select : Option Int
  squad_min_play : Option Int
  squad_max_play : Option Int
  deriving DecidableEq

/-- One entry of `bootstrap-static.elements` (a player), with the fields
`updatePlayers` reads.  `form`, `points_per_game` and `selected_by_percent`
arrive as strings and go through `parseFloat`. -/
structure PlayerIn where
  id : Nat
  web_name : String
  first_name : Option String
  second_name : Option String
  team : Nat
  element_type : Nat
  code : Int
  now_cost : Int
  total_points : Option Int
  form : String
  points_per_game : String
  selected_by_percent : String
  status : Option String
  deriving DecidableEq

/-- The `stats` object of one live-gameweek element.  The four index fields
arrive as strings and go through `parseFloat`. -/
structure LiveStats where
  minutes : Option Int
  goals_scored : Option Int
  assists : Option Int
  clean_sheets : Option Int
  goals_conceded : Option Int
  own_goals : Option Int
  penalties_saved : Option Int
  penalties_missed : Option Int
  yellow_cards : Option Int
  red_cards : Option Int
  saves : Option Int
  bonus : Option Int
  bps : Option Int
  total_points : Option Int
  influence : String
  creativity : String
  threat : String
  ict_index : String
  deriving DecidableEq

/-- One element of the live-gameweek payload: a player identifier plus its
stats block. -/
structure StatIn where
  id : Nat
  stats : LiveStats
  deriving DecidableEq

/-- The bootstrap-static snapshot as used by the script. -/
structure Bootstrap where
  teams : List TeamIn
  elements : List PlayerIn
  events : List EventIn
  element_types : List ElementTypeIn
  deriving DecidableEq

/-- Result of `getCurrentGameweekData`: the current gameweek id paired with
the live per-player stats. -/
structure GameweekData where
  gameweekId : Nat
  elements : List StatIn
  deriving DecidableEq

/-! ## Live-state detection (`checkIfGameIsLive`) -/

/-- `checkIfGameIsLive` (both script variants share this logic): find the
event with a truthy `is_current`; if none, return `false`; otherwise return
whether the fixtures fetched for that gameweek contain one with
`started === true && finished === false`.  The `fixtures` argument is the
payload the second fetch would return for the current gameweek. -/
def checkIfGameIsLive (events : List EventIn) (fixtures : List FixtureIn) : Bool :=
  match events.find? (fun e => jsTruthy e.is_current) with
  | none => false
  | some _ => fixtures.any (fun f => f.started = some true && f.finished = some false)

/-! ## Validation (`validateData`) -/

/-- Result of `validateData`: the returned boolean together with the
`console.error` lines (hard reasons) and `console.warn` lines (soft
reasons) emitted on the way.  Interpolated tails of the messages are
elided. -/
structure ValidationResult where
  ok : Bool
  errors : List String
  warnings : List String
  deriving DecidableEq

/-- Expected league size used by the team-count sanity check. -/
def expectedTeamsCount : Nat := 20

/-- Minimum plausible player count used by the hard player-count check. -/
def minPlayersCount : Nat := 400

/-- Minimum expected event (gameweek) count used by the soft check. -/
def minEventsCount : Nat := 38

/-- `validateData(bootstrapData, gameweekData, fixturesData)`: the checks in
source order.  Each failing hard check logs one error and returns `false`
immediately; the team-count and event-count checks only warn.  (The
null/undefined guards on the three top-level payloads cannot fire in this
embedding because the records are non-null by construction.)  Note that
`!gameweekData.gameweekId` is a JavaScript truthiness test, so a gameweek
id of `0` is rejected. -/
def validateData (bs : Bootstrap) (gw : GameweekData) (fixturesData : List FixtureIn) :
    ValidationResult :=
  if bs.teams.isEmpty then
    { ok := false, errors := ["Invalid or empty teams data"], warnings := [] }
  else if bs.elements.isEmpty then
    { ok := false, errors := ["Invalid or empty players (elements) data"], warnings := [] }
  else if bs.events.isEmpty then
    { ok := false, errors := ["Invalid or empty events data"], warnings := [] }
  else if bs.element_types.isEmpty then
    { ok := false, errors := ["Invalid or empty element_types data"], warnings := [] }
  else if gw.gameweekId = 0 then
    { ok := false, errors := ["Invalid gameweek ID"], warnings := [] }
  else if gw.elements.isEmpty then
    { ok := false, errors := ["Invalid or empty gameweek elements data"], warnings := [] }
  else if fixturesData.isEmpty then
    { ok := false, errors := ["Invalid or empty fixtures data"], warnings := [] }
  else
    let teamWarnings :=
      if bs.teams.length ≠ expectedTeamsCount then ["Warning: unexpected team count"] else []
    if bs.elements.length < minPlayersCount then
      { ok := false, errors := ["Invalid player count"], warnings := teamWarnings }
    else
      let eventWarnings :=
        if bs.events.length < minEventsCount then ["Warning: unexpected event count"] else []
      { ok := true, errors := [], warnings := teamWarnings ++ eventWarnings }

/-! ## Storage model -/

/-- A SQL table keyed by the source integer primary key. -/
def Table (ρ : Type) : Type := Nat → Option ρ

/-- Persisted columns of `dbo.teams` other than the key and the
`last_updated` timestamp.  The `MERGE` in `updateTeams` sets exactly the
same columns on both its matched and not-matched branches, so one record
type describes both. -/
structure TeamRowData where
  name : String
  short_name : String
  code : Int
  position : Option Int
  strength : Option Int
  strength_overall_home : Option Int
  strength_overall_away : Option Int
  strength_attack_home : Option Int
  strength_attack_away : Option Int
  strength_defence_home : Option Int
  strength_defence_away : Option Int
  pulse_id : Option Int
  deriving DecidableEq

/-- A persisted `dbo.teams` row: data columns plus the `last_updated`
timestamp (`GETUTCDATE()` on update, the column default on insert). -/
structure TeamRow where
  data : TeamRowData
  last_updated : Nat
  deriving DecidableEq

/-- Parameter coercion performed by `updateTeams` (`team.position || null`
and friends; recall `0 || null` is `null` in JavaScript). -/
def coerceTeam (t : TeamIn) : TeamRowData :=
  { name := t.name
    short_name := t.short_name
    code := t.code
    position := jsOrNullInt t.position
    strength := jsOrNullInt t.strength
    strength_overall_home := jsOrNullInt t.strength_overall_home
    strength_overall_away := jsOrNullInt t.strength_overall_away
    strength_attack_home := jsOrNullInt t.strength_attack_home
    strength_attack_away := jsOrNullInt t.strength_attack_away
    strength_defence_home := jsOrNullInt t.strength_defence_home
    strength_defence_away := jsOrNullInt t.strength_defence_away
    pulse_id := jsOrNullInt t.pulse_id }

/-- The `MERGE dbo.teams` statement for one record: update-in-place on key
match, insert otherwise; both branches leave the same columns, so the merge
stores the coerced record at the key unconditionally. -/
def mergeTeam (now : Nat) (tbl : Table TeamRow) (t : TeamIn) : Table TeamRow :=
  fun i => if i = t.id then some { data := coerceTeam t, last_updated := now } else tbl i

/-- Persisted columns of `dbo.element_types` other than key and timestamp. -/
structure ElementTypeRowData where
  plural_name : String
  plural_name_short : String
  singular_name : String
  singular_name_short : String
  squad_select : Option Int
  squad_min_play : Option Int
  squad_max_play : Option Int
  deriving DecidableEq

/-- A persisted `dbo.element_types` row. -/
structure ElementTypeRow where
  data : ElementTypeRowData
  last_updated : Nat
  deriving DecidableEq

/-- Parameter coercion performed by `updateElementTypes`. -/
def coerceElementType (t : ElementTypeIn) : ElementTypeRowData :=
  { plural_name := t.plural_name
    plural_name_short := t.plural_name_short
    singular_name := t.singular_name
    singular_name_short := t.singular_name_short
    squad_select := jsOrNullInt t.squad_select
    squad_min_play := jsOrNullInt t.squad_min_play
    squad_max_play := jsOrNullInt t.squad_max_play }

/-- The `MERGE dbo.element_types` statement for one record (matched and
not-matched branches set the same columns). -/
def mergeElementType (now : Nat) (tbl : Table ElementTypeRow) (t : ElementTypeIn) :
    Table ElementTypeRow :=
  fun i => if i = t.id then some { data := coerceElementType t, last_updated := now } else tbl i

/-- Persisted columns of `dbo.events` other than key and timestamp. -/
structure EventRowData where
  name : String
  deadline_time : Option String
  average_entry_score : Option Int
  finished : Bool
  data_checked : Bool
  highest_scoring_entry : Option Int
  highest_score : Option Int
  is_previous : Bool
  is_current : Bool
  is_next : Bool
  most_selected : Option Int
  most_transferred_in : Option Int
  top_element : Option Int
  transfers_made : Option Int
  most_captained : Option Int
  most_vice_captained : Option Int
  deriving DecidableEq

/-- A persisted `dbo.events` row. -/
structure EventRow where
  data : EventRowData
  last_updated : Nat
  deriving DecidableEq

/-- Parameter coercion performed by `updateEvents` (`event.finished ||
false`, `event.deadline_time ? new Date(...) : null`, `... || null`). -/
def coerceEvent (e : EventIn) : EventRowData :=
  { name := e.name
    deadline_time := jsOrNullStr e.deadline_time
    average_entry_score := jsOrNullInt e.average_entry_score
    finished := jsOrFalse e.finished
    data_checked := jsOrFalse e.data_checked
    highest_scoring_entry := jsOrNullInt e.highest_scoring_entry
    highest_score := jsOrNullInt e.highest_score
    is_previous := jsOrFalse e.is_previous
    is_current := jsOrFalse e.is_current
    is_next := jsOrFalse e.is_next
    most_selected := jsOrNullInt e.most_selected
    most_transferred_in := jsOrNullInt e.most_transferred_in
    top_element := jsOrNullInt e.top_element
    transfers_made := jsOrNullInt e.transfers_made
    most_captained := jsOrNullInt e.most_captained
    most_vice_captained := jsOrNullInt e.most_vice_captained }

/-- The `MERGE dbo.events` statement for one record (matched and
not-matched branches set the same columns). -/
def mergeEvent (now : Nat) (tbl : Table EventRow) (e : EventIn) : Table EventRow :=
  fun i => if i = e.id then some { data := coerceEvent e, last_updated := now } else tbl i

/-- Persisted columns of `dbo.fixtures` other than key and timestamp. -/
structure FixtureRowData where
  code : Int
  event : Option Int
  finished : Bool
  finished_provisional : Bool
  kickoff_time : Option String
  minutes : Int
  started : Bool
  team_a : Nat
  team_h : Nat
  team_a_score : Option Int
  team_h_score : Option Int
  team_a_difficulty : Option Int
  team_h_difficulty : Option Int
  pulse_id : Option Int
  deriving DecidableEq

/-- A persisted `dbo.fixtures` row. -/
structure FixtureRow where
  data : FixtureRowData
  last_updated : Nat
  deriving DecidableEq

/-- Parameter coercion performed by `updateFixtures`. -/
def coerceFixture (f : FixtureIn) : FixtureRowData :=
  { code := f.code
    event := jsOrNullInt f.event
    finished := jsOrFalse f.finished
    finished_provisional := jsOrFalse f.finished_provisional
    kickoff_time := jsOrNullStr f.kickoff_time
    minutes := jsOrZero f.minutes
    started := jsOrFalse f.started
    team_a := f.team_a
    team_h := f.team_h
    team_a_score := jsOrNullInt f.team_a_score
    team_h_score := jsOrNullInt f.team_h_score
    team_a_difficulty := jsOrNullInt f.team_a_difficulty
    team_h_difficulty := jsOrNullInt f.team_h_difficulty
    pulse_id := jsOrNullInt f.pulse_id }

/-- The `MERGE dbo.fixtures` statement for one record (matched and
not-matched branches set the same columns). -/
def mergeFixture (now : Nat) (tbl : Table FixtureRow) (f : FixtureIn) : Table FixtureRow :=
  fun i => if i = f.id then some { data := coerceFixture f, last_updated := now } else tbl i

/-- The reference-data columns of `dbo.players` written by the
`updatePlayers` merge on both branches. -/
structure PlayerRefData where
  web_name : String
  first_name : Option String
  second_name : Option String
  team : Nat
  element_type : Nat
  now_cost : Int
  total_points : Int
  form : Option Rat
  points_per_game : Option Rat
  selected_by_percent : Option Rat
  status : String
  deriving DecidableEq

/-- The live-stat columns of `dbo.players` written (all together) by the
targeted `UPDATE` in `updatePlayerStats`; schema defaults are zero. -/
structure PlayerStatsCols where
  event_points : Int
  minutes : Int
  goals_scored : Int
  assists : Int
  clean_sheets : Int
  goals_conceded : Int
  own_goals : Int
  penalties_saved : Int
  penalties_missed : Int
  yellow_cards : Int
  red_cards : Int
  saves : Int
  bonus : Int
  bps : Int
  influence : Rat
  creativity : Rat
  threat : Rat
  ict_index : Rat
  deriving DecidableEq

/-- The schema defaults for the live-stat columns (all zero), taken by a
freshly inserted player row. -/
def defaultStatsCols : PlayerStatsCols :=
  { event_points := 0, minutes := 0, goals_scored := 0, assists := 0, clean_sheets := 0
    goals_conceded := 0, own_goals := 0, penalties_saved := 0, penalties_missed := 0
    yellow_cards := 0, red_cards := 0, saves := 0, bonus := 0, bps := 0
    influence := 0, creativity := 0, threat := 0, ict_index := 0 }

/-- A persisted `dbo.players` row: reference columns, the `code` column
(set only on insert — the matched branch of the merge does not update it),
the live-stat columns, and the timestamp. -/
structure PlayerRow where
  ref : PlayerRefData
  code : Int
  stats : PlayerStatsCols
  last_updated : Nat
  deriving DecidableEq

/-- The row with its timestamp column projected away ("identical except the
last-modified timestamp"). -/
def PlayerRow.stripTs (r : PlayerRow) : PlayerRefData × Int × PlayerStatsCols :=
  (r.ref, r.code, r.stats)

/-- Parameter coercion performed by `updatePlayers`
(`player.total_points || 0`, `parseFloat(player.form) || null`,
`player.status || 'a'`).  `pf` abstracts `parseFloat`. -/
def coercePlayerRef (pf : String → Option Rat) (p : PlayerIn) : PlayerRefData :=
  { web_name := p.web_name
    first_name := jsOrNullStr p.first_name
    second_name := jsOrNullStr p.second_name
    team := p.team
    element_type := p.element_type
    now_cost := p.now_cost
    total_points := jsOrZero p.total_points
    form := jsOrNullRat (pf p.form)
    points_per_game := jsOrNullRat (pf p.points_per_game)
    selected_by_percent := jsOrNullRat (pf p.selected_by_percent)
    status := jsOrDefaultStr "a" p.status }

/-- The `MERGE dbo.players` statement for one record: the matched branch
updates the reference columns and the timestamp but leaves `code` and the
live-stat columns untouched; the not-matched branch inserts the reference
columns plus `code`, with the stat columns taking their schema defaults. -/
def mergePlayer (pf : String → Option Rat) (now : Nat) (tbl : Table PlayerRow) (p : PlayerIn) :
    Table PlayerRow :=
  fun i =>
    if i = p.id then
      match tbl p.id with
      | some old =>
          some { ref := coercePlayerRef pf p, code := old.code, stats := old.stats
                 last_updated := now }
      | none =>
          some { ref := coercePlayerRef pf p, code := p.code, stats := defaultStatsCols
                 last_updated := now }
    else tbl i

/-- Parameter coercion performed by `updatePlayerStats`
(`stats.minutes || 0`, `parseFloat(stats.influence) || 0`; the live
`total_points` lands in the `event_points` column). -/
def coerceStats (pf : String → Option Rat) (s : LiveStats) : PlayerStatsCols :=
  { event_points := jsOrZero s.total_points
    minutes := jsOrZero s.minutes
    goals_scored := jsOrZero s.goals_scored
    assists := jsOrZero s.assists
    clean_sheets := jsOrZero s.clean_sheets
    goals_conceded := jsOrZero s.goals_conceded
    own_goals := jsOrZero s.own_goals
    penalties_saved := jsOrZero s.penalties_saved
    penalties_missed := jsOrZero s.penalties_missed
    yellow_cards := jsOrZero s.yellow_cards
    red_cards := jsOrZero s.red_cards
    saves := jsOrZero s.saves
    bonus := jsOrZero s.bonus
    bps := jsOrZero s.bps
    influence := jsOrZeroRat (pf s.influence)
    creativity := jsOrZeroRat (pf s.creativity)
    threat := jsOrZeroRat (pf s.threat)
    ict_index := jsOrZeroRat (pf s.ict_index) }

/-- The targeted `UPDATE dbo.players ... WHERE id = @player_id` for one
live-stat row: if a row with the player id exists its stat columns and
timestamp are overwritten, otherwise zero rows are affected and the table
is unchanged (an `UPDATE` has no insert branch). -/
def applyStatUpdate (pf : String → Option Rat) (now : Nat) (tbl : Table PlayerRow)
    (e : StatIn) : Table PlayerRow :=
  fun i =>
    if i = e.id then
      match tbl e.id with
      | some old => some { old with stats := coerceStats pf e.stats, last_updated := now }
      | none => none
    else tbl i

/-! ## The update run (`updateDatabase` and `main`) -/

/-- The six tables written by `updateDatabase`, in the order the script
writes them. -/
inductive Tag where
  | teams
  | elementTypes
  | events
  | fixtures
  | players
  | playerStats
  deriving DecidableEq

/-- Failures surfaced by the run: a connection that never reached the
`connect` callback successfully, an exception thrown out of a
reference-data upsert (tagged with its table and the failing record id),
and the `Failed to update N players` error thrown after the live-stats
batch when its error counter is nonzero. -/
inductive Err where
  | connectFailed
  | refFail (tag : Tag) (recId : Nat)
  | partialBatch (count : Nat)
  deriving DecidableEq

/-- Shared loop shape of the five reference updaters
(`for (const x of xs) { await merge(x) }`): each record is merged in turn;
a rejected request throws out of the loop immediately, leaving the merges
already performed in place. -/
def runUpsert (merge : Table ρ → α → Table ρ) (fails : α → Bool) (tag : Tag)
    (idOf : α → Nat) (tbl : Table ρ) : List α → Table ρ × Option Err
  | [] => (tbl, none)
  | x :: xs =>
      if fails x then (tbl, some (Err.refFail tag (idOf x)))
      else runUpsert merge fails tag idOf (merge tbl x) xs

/-- `updateTeams(connection, teams)`. -/
def updateTeams (now : Nat) (fails : TeamIn → Bool) (tbl : Table TeamRow)
    (teams : List TeamIn) : Table TeamRow × Option Err :=
  runUpsert (mergeTeam now) fails Tag.teams (fun t => t.id) tbl teams

/-- `updateElementTypes(connection, elementTypes)`. -/
def updateElementTypes (now : Nat) (fails : ElementTypeIn → Bool)
    (tbl : Table ElementTypeRow) (elementTypes : List ElementTypeIn) :
    Table ElementTypeRow × Option Err :=
  runUpsert (mergeElementType now) fails Tag.elementTypes (fun t => t.id) tbl elementTypes

/-- `updateEvents(connection, events)`. -/
def updateEvents (now : Nat) (fails : EventIn → Bool) (tbl : Table EventRow)
    (events : List EventIn) : Table EventRow × Option Err :=
  runUpsert (mergeEvent now) fails Tag.events (fun e => e.id) tbl events

/-- `updateFixtures(connection, fixtures)`. -/
def updateFixtures (now : Nat) (fails : FixtureIn → Bool) (tbl : Table FixtureRow)
    (fixtures : List FixtureIn) : Table FixtureRow × Option Err :=
  runUpsert (mergeFixture now) fails Tag.fixtures (fun f => f.id) tbl fixtures

/-- `updatePlayers(connection, players)`. -/
def updatePlayers (pf : String → Option Rat) (now : Nat) (fails : PlayerIn → Bool)
    (tbl : Table PlayerRow) (players : List PlayerIn) : Table PlayerRow × Option Err :=
  runUpsert (mergePlayer pf now) fails Tag.players (fun p => p.id) tbl players

/-- Outcome of the live-stats batch: the resulting players table, the
`updateCount` and `errorCount` counters, and the error thrown after the
loop (if any). -/
structure StatsRun where
  db : Table PlayerRow
  updateCount : Nat
  errorCount : Nat
  err : Option Err

/-- One iteration of the `updatePlayerStats` loop: a rejected request is
caught, logged and counted, leaving the table untouched; a successful one
runs the targeted update and bumps the success counter. -/
def statsStep (pf : String → Option Rat) (now : Nat) (fails : StatIn → Bool)
    (acc : Table PlayerRow × Nat × Nat) (e : StatIn) : Table PlayerRow × Nat × Nat :=
  if fails e then (acc.1, acc.2.1, acc.2.2 + 1)
  else (applyStatUpdate pf now acc.1 e, acc.2.1 + 1, acc.2.2)

/-- `updatePlayerStats(connection, gameweekData)`: every element is
attempted in order (per-row `try/catch`, no early abort); after the loop
the function throws `Failed to update N players` iff the error counter is
nonzero.  (The `elements.length === 0` early return coincides with the
fold on the empty list.) -/
def updatePlayerStats (pf : String → Option Rat) (now : Nat) (fails : StatIn → Bool)
    (tbl : Table PlayerRow) (elements : List StatIn) : StatsRun :=
  let z := elements.foldl (statsStep pf now fails) (tbl, 0, 0)
  { db := z.1, updateCount := z.2.1, errorCount := z.2.2
    err := if 0 < z.2.2 then some (Err.partialBatch z.2.2) else none }

/-- The whole relational store. -/
structure Db where
  teams : Table TeamRow
  element_types : Table ElementTypeRow
  events : Table EventRow
  fixtures : Table FixtureRow
  players : Table PlayerRow

/-- Environment of one run: whether the connection reaches the `connect`
callback without error, the clock value `GETUTCDATE()` returns, the
`parseFloat` semantics, and the per-record SQL failure oracles for each
table. -/
structure RunCfg where
  connectOk : Bool
  now : Nat
  pf : String → Option Rat
  teamFail : TeamIn → Bool
  etFail : ElementTypeIn → Bool
  evFail : EventIn → Bool
  fxFail : FixtureIn → Bool
  plFail : PlayerIn → Bool
  statFail : StatIn → Bool

/-- Result of `updateDatabase`: the final store, the tables whose update
phase was entered (in order), and the error the returned promise was
rejected with (if any). -/
structure RunResult where
  db : Db
  log : List Tag
  err : Option Err

/-- The order in which `updateDatabase` runs the six update phases. -/
def canonicalOrder : List Tag :=
  [Tag.teams, Tag.elementTypes, Tag.events, Tag.fixtures, Tag.players, Tag.playerStats]

/-- `updateDatabase(bootstrapData, gameweekData, fixturesData)`: on a
successful connect, run the six updates in sequence inside one `try`;
the first exception from a reference updater aborts the sequence (the
partial writes already issued stay in place); the live-stats batch runs
last and its terminal error, if any, rejects the promise the same way. -/
def updateDatabase (cfg : RunCfg) (db : Db) (bs : Bootstrap) (gw : GameweekData)
    (fixturesData : List FixtureIn) : RunResult :=
  if cfg.connectOk = false then
    { db := db, log := [], err := some Err.connectFailed }
  else
    match updateTeams cfg.now cfg.teamFail db.teams bs.teams with
    | (tT, some er) => { db := { db with teams := tT }, log := [Tag.teams], err := some er }
    | (tT, none) =>
      let db1 := { db with teams := tT }
      match updateElementTypes cfg.now cfg.etFail db1.element_types bs.element_types with
      | (tE, some er) =>
          { db := { db1 with element_types := tE }, log := [Tag.teams, Tag.elementTypes]
            err := some er }
      | (tE, none) =>
        let db2 := { db1 with element_types := tE }
        match updateEvents cfg.now cfg.evFail db2.events bs.events with
        | (tV, some er) =>
            { db := { db2 with events := tV }
              log := [Tag.teams, Tag.elementTypes, Tag.events], err := some er }
        | (tV, none) =>
          let db3 := { db2 with events := tV }
          match updateFixtures cfg.now cfg.fxFail db3.fixtures fixturesData with
          | (tF, some er) =>
              { db := { db3 with fixtures := tF }
                log := [Tag.teams, Tag.elementTypes, Tag.events, Tag.fixtures], err := some er }
          | (tF, none) =>
            let db4 := { db3 with fixtures := tF }
            match updatePlayers cfg.pf cfg.now cfg.plFail db4.players bs.elements with
            | (tP, some er) =>
                { db := { db4 with players := tP }
                  log := [Tag.teams, Tag.elementTypes, Tag.events, Tag.fixtures, Tag.players]
                  err := some er }
            | (tP, none) =>
              let db5 := { db4 with players := tP }
              let s := updatePlayerStats cfg.pf cfg.now cfg.statFail db5.players gw.elements
              { db := { db5 with players := s.db }, log := canonicalOrder, err := s.err }

/-- `main()` of the richer script variant, from the point where all fetches
have succeeded: live check first (false short-circuits to exit 0 with no
write), then validation (failure exits 1 with no write), then
`updateDatabase` (a rejection is caught and exits 1; success exits 0).
Returns the process exit code and the final store.  (Named `mainRun`
because Lean reserves the name `main` for an executable entry point.) -/
def mainRun (cfg : RunCfg) (db : Db) (eventsLive : List EventIn) (fixturesLive : List FixtureIn)
    (bs : Bootstrap) (gw : GameweekData) (fixturesData : List FixtureIn) : Nat × Db :=
  if checkIfGameIsLive eventsLive fixturesLive = false then (0, db)
  else if (validateData bs gw fixturesData).ok = false then (1, db)
  else
    let r := updateDatabase cfg db bs gw fixturesData
    match r.err with
    | some _ => (1, r.db)
    | none => (0, r.db)

/-! ## Connection lifecycle (`updateDatabase` promise executor)

`updateDatabase` wraps the tedious connection in a `new Promise` with three
handlers:

* `connection.on('connect', err => ...)`: on `err`, it rejects without
  closing; otherwise it runs the six updates in a `try/catch` whose both
  exits call `connection.close()` exactly once before settling the promise;
* `connection.on('error', err => ...)`: it rejects the promise without
  calling `connection.close()`; the rejection reaches `main`'s `catch`,
  which calls `process.exit(1)` immediately, so the run terminates with the
  connection still open.

The model assigns to each way the promise can settle the number of
`connection.close()` calls made before the run terminates. -/

/-- How the `updateDatabase` promise settles: `connectOk` is whether the
`connect` callback received no error, `errorEvent` is whether the
connection-level `'error'` event is what settled the promise, and
`updatesErr` is the outcome of the six-update `try` block otherwise. -/
def updateDatabaseConn (connectOk : Bool) (errorEvent : Bool) (updatesErr : Option Err) :
    Nat × Bool :=
  if errorEvent then (0, true)
  else if connectOk = false then (0, true)
  else
    match updatesErr with
    | none => (1, false)
    | some _ => (1, true)

/-- Number of `connection.close()` calls made before the run terminates on
a given settling of the `updateDatabase` promise. -/
def connCloseCalls (connectOk : Bool) (errorEvent : Bool) (updatesErr : Option Err) : Nat :=
  (updateDatabaseConn connectOk errorEvent updatesErr).1

/-- Whether the promise settled by rejecting (so `main` exits 1). -/
def connRejected (connectOk : Bool) (errorEvent : Bool) (updatesErr : Option Err) : Bool :=
  (updateDatabaseConn connectOk errorEvent updatesErr).2

/-! ## Statement helpers and concrete inputs -/

/-- The last element of a list satisfying a predicate (the record whose
merge wins when several records share a primary key). -/
def lastWith (p : α → Bool) : List α → Option α
  | [] => none
  | x :: xs =>
      match lastWith p xs with
      | some y => some y
      | none => if p x then some x else none

/-- No reference-data write fails in this run: the failure oracles return
`false` on every record the five reference updaters will touch. -/
def NoRefFailures (cfg : RunCfg) (bs : Bootstrap) (fx : List FixtureIn) : Prop :=
  (∀ t ∈ bs.teams, cfg.teamFail t = false) ∧
  (∀ e ∈ bs.element_types, cfg.etFail e = false) ∧
  (∀ e ∈ bs.events, cfg.evFail e = false) ∧
  (∀ f ∈ fx, cfg.fxFail f = false) ∧
  (∀ p ∈ bs.elements, cfg.plFail p = false)

instance (cfg : RunCfg) (bs : Bootstrap) (fx : List FixtureIn) :
    Decidable (NoRefFailures cfg bs fx) := by
  unfold NoRefFailures; infer_instance

/-- All hard validation rules other than the player-count rule, plus the
player-count rule itself — everything `validateData` treats as fatal. -/
def hardRulesPass (bs : Bootstrap) (gw : GameweekData) (fx : List FixtureIn) : Prop :=
  bs.teams ≠ [] ∧ minPlayersCount ≤ bs.elements.length ∧ bs.events ≠ [] ∧
  bs.element_types ≠ [] ∧ gw.gameweekId ≠ 0 ∧ gw.elements ≠ [] ∧ fx ≠ []

instance (bs : Bootstrap) (gw : GameweekData) (fx : List FixtureIn) :
    Decidable (hardRulesPass bs gw fx) := by
  unfold hardRulesPass; infer_instance

/-- A current gameweek record. -/
def ev0 : EventIn :=
  { id := 5, name := "GW5", deadline_time := none, average_entry_score := none
    finished := none, data_checked := none, highest_scoring_entry := none
    highest_score := none, is_previous := none, is_current := some true, is_next := none
    most_selected := none, most_transferred_in := none, top_element := none
    transfers_made := none, most_captained := none, most_vice_captained := none }

/-- A non-current gameweek record. -/
def evNotCurrent : EventIn :=
  { ev0 with id := 6, is_current := some false }

/-- A live fixture (`started: true, finished: false`). -/
def fxLive0 : FixtureIn :=
  { id := 1, code := 100, event := some 5, finished := some false
    finished_provisional := none, kickoff_time := none, minutes := some 10
    started := some true, team_a := 1, team_h := 2, team_a_score := none
    team_h_score := none, team_a_difficulty := none, team_h_difficulty := none
    pulse_id := none }

/-- A team record. -/
def team0 : TeamIn :=
  { id := 3, name := "Arsenal", short_name := "ARS", code := 3, position := some 1
    strength := some 4, strength_overall_home := none, strength_overall_away := none
    strength_attack_home := none, strength_attack_away := none
    strength_defence_home := none, strength_defence_away := none, pulse_id := none }

/-- A position-type record. -/
def et0 : ElementTypeIn :=
  { id := 1, plural_name := "Goalkeepers", plural_name_short := "GKP"
    singular_name := "Goalkeeper", singular_name_short := "GKP"
    squad_select := some 2, squad_min_play := some 1, squad_max_play := some 1 }

/-- A player record (id 1000, deliberately distinct from the ids used in
live-stat rows below). -/
def player0 : PlayerIn :=
  { id := 1000, web_name := "Saka", first_name := none, second_name := none
    team := 3, element_type := 1, code := 7, now_cost := 50, total_points := none
    form := "1.5", points_per_game := "", selected_by_percent := "", status := none }

/-- An all-absent live-stats block. -/
def liveStats0 : LiveStats :=
  { minutes := none, goals_scored := none, assists := none, clean_sheets := none
    goals_conceded := none, own_goals := none, penalties_saved := none
    penalties_missed := none, yellow_cards := none, red_cards := none, saves := none
    bonus := none, bps := none, total_points := none, influence := ""
    creativity := "", threat := "", ict_index := "" }

/-- A live-stat row for player id 5. -/
def stat5 : StatIn :=
  { id := 5, stats := { liveStats0 with minutes := some 90, total_points := some 6 } }

/-- A live-stat row for player id 6. -/
def stat6 : StatIn :=
  { id := 6, stats := liveStats0 }

/-- A bootstrap snapshot that passes validation (21 teams, which only
warns; 400 players; 38 events). -/
def bs0 : Bootstrap :=
  { teams := List.replicate 21 team0, elements := List.replicate 400 player0
    events := List.replicate 38 ev0, element_types := [et0] }

/-- A bootstrap snapshot with too few players (1 < 400). -/
def bsLow : Bootstrap :=
  { bs0 with elements := [player0] }

/-- A bootstrap snapshot violating two hard validation rules at once:
empty teams and empty players. -/
def bsBad : Bootstrap :=
  { teams := [], elements := [], events := [ev0], element_types := [et0] }

/-- Gameweek data with one live-stat row. -/
def gw0 : GameweekData :=
  { gameweekId := 5, elements := [stat5] }

/-- Gameweek data with two live-stat rows (ids 5 and 6). -/
def gw2 : GameweekData :=
  { gameweekId := 5, elements := [stat5, stat6] }

/-- A fixtures payload with one live fixture. -/
def fx0 : List FixtureIn := [fxLive0]

/-- A run environment where the connection succeeds and no write fails. -/
def cfg0 : RunCfg :=
  { connectOk := true, now := 1, pf := fun _ => none
    teamFail := fun _ => false, etFail := fun _ => false, evFail := fun _ => false
    fxFail := fun _ => false, plFail := fun _ => false, statFail := fun _ => false }

/-- Like `cfg0`, but the live-stat write for player id 6 fails. -/
def cfgStatFail : RunCfg :=
  { cfg0 with statFail := fun e => e.id == 6 }

/-- Like `cfg0`, but every write to the events table fails. -/
def cfgEvFail : RunCfg :=
  { cfg0 with evFail := fun _ => true }

/-- An empty store. -/
def emptyDb : Db :=
  { teams := fun _ => none, element_types := fun _ => none, events := fun _ => none
    fixtures := fun _ => none, players := fun _ => none }

/-! ## Supporting lemmas -/

theorem validateData_ok_false_of_lowPlayers (bs : Bootstrap) (gw : GameweekData)
    (fx : List FixtureIn) (h : bs.elements.length < minPlayersCount) :
    (validateData bs gw fx).ok = false := by
  unfold validateData
  repeat' split
  all_goals simp_all [List.isEmpty_iff]

theorem validateData_ok_iff (bs : Bootstrap) (gw : GameweekData) (fx : List FixtureIn) :
    (validateData bs gw fx).ok = true ↔ hardRulesPass bs gw fx := by
  unfold validateData hardRulesPass
  repeat' split
  all_goals simp_all [List.isEmpty_iff, minPlayersCount]

theorem validateData_ok_of_hardRules (bs : Bootstrap) (gw : GameweekData)
    (fx : List FixtureIn) (h : hardRulesPass bs gw fx) :
    (validateData bs gw fx).ok = true :=
  (validateData_ok_iff bs gw fx).mpr h

/-! ## Claim theorems -/

/-- C1: for every event list and fixture list, `checkIfGameIsLive` returns
`true` iff there is a current gameweek and at least one fixture with
`started === true` and `finished === false`; it returns `false` on an empty
fixture list, and `false` (an ordinary return, not an exception) when no
event has a truthy `is_current`. -/
theorem checkIfGameIsLive_spec (events : List EventIn) (fixtures : List FixtureIn) :
    (checkIfGameIsLive events fixtures = true ↔
      ((∃ e ∈ events, jsTruthy e.is_current = true) ∧
        ∃ f ∈ fixtures, f.started = some true ∧ f.finished = some false)) ∧
    (fixtures = [] → checkIfGameIsLive events fixtures = false) ∧
    ((∀ e ∈ events, jsTruthy e.is_current = false) → checkIfGameIsLive events fixtures = false) := by
  unfold checkIfGameIsLive
  cases hfind : events.find? (fun e => jsTruthy e.is_current) with
  | none =>
    have hnone := List.find?_eq_none.mp hfind
    refine ⟨⟨fun hcontr => absurd hcontr Bool.false_ne_true, fun hp => ?_⟩,
      fun _ => rfl, fun _ => rfl⟩
    obtain ⟨⟨e, he, hcur⟩, -⟩ := hp
    exact absurd hcur (hnone e he)
  | some e =>
    have hmem := List.mem_of_find?_eq_some hfind
    have hcur := List.find?_some hfind
    refine ⟨?_, ?_, ?_⟩
    · simp only [List.any_eq_true, Bool.and_eq_true, decide_eq_true_eq]
      constructor
      · rintro ⟨f, hf, hs, hfin⟩
        exact ⟨⟨e, hmem, hcur⟩, f, hf, hs, hfin⟩
      · rintro ⟨-, f, hf, hs, hfin⟩
        exact ⟨f, hf, hs, hfin⟩
    · rintro rfl; rfl
    · intro hall
      exact absurd hcur (by simp [hall e hmem])

/-- C1 witness: with one non-current event and one live fixture the check
still returns `false`, via the no-current clause of the theorem. -/
theorem checkIfGameIsLive_spec_witness :
    checkIfGameIsLive [evNotCurrent] [fxLive0] = false :=
  (checkIfGameIsLive_spec [evNotCurrent] [fxLive0]).2.2 (by decide)

/-- C3 counterexample: `bsBad` violates two hard rules at once (its teams
list and its players list are both empty), yet `validateData` reports only
the first rule's reason — the players-rule reason is absent from the
result. -/
theorem validateData_counterexample :
    (validateData bsBad gw0 fx0).ok = false ∧
    bsBad.elements.isEmpty = true ∧
    (validateData bsBad gw0 fx0).errors = ["Invalid or empty teams data"] ∧
    "Invalid or empty players (elements) data" ∉ (validateData bsBad gw0 fx0).errors := by
  decide

/-- C3 amended: the validator short-circuits at the first violated hard
rule — whenever it fails, it reports exactly one reason (the first rule
violated in source order), and when it succeeds it reports none. -/
theorem validateData_firstReasonOnly (bs : Bootstrap) (gw : GameweekData)
    (fx : List FixtureIn) :
    ((validateData bs gw fx).ok = false → (validateData bs gw fx).errors.length = 1) ∧
    ((validateData bs gw fx).ok = true → (validateData bs gw fx).errors = []) := by
  unfold validateData
  repeat' split
  all_goals simp

/-- C3 amended-claim witness: on the doubly-invalid snapshot the validator
fails with exactly one reason. -/
theorem validateData_firstReasonOnly_witness :
    (validateData bsBad gw0 fx0).errors.length = 1 :=
  (validateData_firstReasonOnly bsBad gw0 fx0).1 (by decide)

/-- C4: whenever the game is live (so the run reaches validation), a
bootstrap snapshot with fewer than 400 players makes `validateData` return
a hard failure, and the run exits with status 1 leaving the store
untouched — the write path is never entered. -/
theorem lowPlayerCount_blocks_run (cfg : RunCfg) (db : Db) (evs : List EventIn)
    (fxl : List FixtureIn) (bs : Bootstrap) (gw : GameweekData) (fx : List FixtureIn)
    (hlow : bs.elements.length < minPlayersCount)
    (hlive : checkIfGameIsLive evs fxl = true) :
    (validateData bs gw fx).ok = false ∧
    mainRun cfg db evs fxl bs gw fx = (1, db) := by
  have hv := validateData_ok_false_of_lowPlayers bs gw fx hlow
  exact ⟨hv, by simp [mainRun, hlive, hv]⟩

/-- C4 witness: a live gameweek with a 1-player snapshot fails validation
and exits 1 with the store unchanged. -/
theorem lowPlayerCount_blocks_run_witness :
    (validateData bsLow gw0 fx0).ok = false ∧
    mainRun cfg0 emptyDb [ev0] fx0 bsLow gw0 fx0 = (1, emptyDb) :=
  lowPlayerCount_blocks_run cfg0 emptyDb [ev0] fx0 bsLow gw0 fx0 (by decide) (by decide)

/-- C5: whenever `checkIfGameIsLive` returns `false`, the run exits with
status 0 and the store is untouched (the live check is the first thing
`main` consults, before any write path). -/
theorem noLiveGames_noop (cfg : RunCfg) (db : Db) (evs : List EventIn)
    (fxl : List FixtureIn) (bs : Bootstrap) (gw : GameweekData) (fx : List FixtureIn)
    (h : checkIfGameIsLive evs fxl = false) :
    mainRun cfg db evs fxl bs gw fx = (0, db) := by
  simp [mainRun, h]

/-- C5 witness: with no events at all the run is a successful no-op. -/
theorem noLiveGames_noop_witness :
    mainRun cfg0 emptyDb [] [] bs0 gw0 fx0 = (0, emptyDb) :=
  noLiveGames_noop cfg0 emptyDb [] [] bs0 gw0 fx0 (by decide)

/-- C8 counterexample: on the exit path where the connection was acquired
(`connect` succeeded) but the connection-level `'error'` event settles the
run, the promise rejects with zero `connection.close()` calls — the
connection is not released before the run terminates. -/
theorem connClose_counterexample :
    connCloseCalls true true none = 0 ∧ connRejected true true none = true := by
  decide

/-- C8 amended: the connection is released exactly once on the two exit
paths that run the update sequence to completion (success or a thrown
update exception), but it is not released on the connection-level
error-event path, nor on the connect-failure path (where it was never
acquired). -/
theorem connClose_spec (e : Option Err) :
    connCloseCalls true false e = 1 ∧ connCloseCalls true true e = 0 ∧
    connCloseCalls false false e = 0 := by
  cases e <;> simp [connCloseCalls, updateDatabaseConn]

theorem runUpsert_noFail {α ρ : Type} (merge : Table ρ → α → Table ρ) (fails : α → Bool)
    (tag : Tag) (idOf : α → Nat) (l : List α) :
    ∀ tbl : Table ρ, (∀ x ∈ l, fails x = false) →
      runUpsert merge fails tag idOf tbl l = (l.foldl merge tbl, none) := by
  induction l with
  | nil => intro tbl _; rfl
  | cons x xs ih =>
    intro tbl h
    have hx : fails x = false := h x (List.mem_cons_self x xs)
    simp only [runUpsert, hx, Bool.false_eq_true, if_false, List.foldl_cons]
    exact ih (merge tbl x) fun y hy => h y (List.mem_cons_of_mem x hy)

theorem runUpsert_err_shape {α ρ : Type} (merge : Table ρ → α → Table ρ) (fails : α → Bool)
    (tag : Tag) (idOf : α → Nat) (l : List α) :
    ∀ (tbl : Table ρ) (er : Err),
      (runUpsert merge fails tag idOf tbl l).2 = some er → ∃ j, er = Err.refFail tag j := by
  induction l with
  | nil => intro tbl er h; exact absurd h (by simp [runUpsert])
  | cons x xs ih =>
    intro tbl er h
    by_cases hx : fails x = true
    · simp only [runUpsert, hx, if_true] at h
      exact ⟨idOf x, (Option.some_injective _ h).symm⟩
    · simp only [runUpsert, hx, if_false] at h
      exact ih (merge tbl x) er h

theorem runUpsert_fst_frozen {α ρ : Type} (merge : Table ρ → α → Table ρ) (fails : α → Bool)
    (tag : Tag) (idOf : α → Nat) (i : Nat) (l : List α) :
    ∀ tbl : Table ρ, (∀ x ∈ l, ∀ t : Table ρ, merge t x i = t i) →
      ((runUpsert merge fails tag idOf tbl l).1) i = tbl i := by
  induction l with
  | nil => intro tbl _; rfl
  | cons x xs ih =>
    intro tbl h
    by_cases hx : fails x = true
    · simp only [runUpsert]; rw [if_pos hx]
    · simp only [runUpsert]; rw [if_neg hx]
      rw [ih (merge tbl x) fun y hy t => h y (List.mem_cons_of_mem x hy) t]
      exact h x (List.mem_cons_self x xs) tbl

theorem countP_not_add_countP {α : Type} (q : α → Bool) (l : List α) :
    l.countP (fun e => !q e) + l.countP q = l.length := by
  induction l with
  | nil => simp
  | cons x xs ih => cases hx : q x <;> simp [List.countP_cons, hx] <;> omega

theorem statsStep_foldl_counts (pf : String → Option Rat) (now : Nat) (fails : StatIn → Bool)
    (l : List StatIn) :
    ∀ (tbl : Table PlayerRow) (u0 k0 : Nat),
      (l.foldl (statsStep pf now fails) (tbl, u0, k0)).2.1 =
        u0 + l.countP (fun e => !fails e) ∧
      (l.foldl (statsStep pf now fails) (tbl, u0, k0)).2.2 =
        k0 + l.countP (fun e => fails e) := by
  induction l with
  | nil => intro tbl u0 k0; simp
  | cons x xs ih =>
    intro tbl u0 k0
    cases hx : fails x with
    | true =>
      have h := ih tbl u0 (k0 + 1)
      simp only [List.foldl_cons, statsStep, hx, if_true]
      refine ⟨?_, ?_⟩
      · rw [h.1, List.countP_cons]; simp [hx]
      · rw [h.2, List.countP_cons]; simp [hx]; omega
    | false =>
      have h := ih (applyStatUpdate pf now tbl x) (u0 + 1) k0
      simp only [List.foldl_cons, statsStep, hx, Bool.false_eq_true, if_false]
      refine ⟨?_, ?_⟩
      · rw [h.1, List.countP_cons]; simp [hx]; omega
      · rw [h.2, List.countP_cons]; simp [hx]

theorem applyStatUpdate_none (pf : String → Option Rat) (now : Nat) (tbl : Table PlayerRow)
    (e : StatIn) (i : Nat) (h : tbl i = none) : applyStatUpdate pf now tbl e i = none := by
  unfold applyStatUpdate
  by_cases hi : i = e.id
  · rw [if_pos hi, ← hi, h]
  · rw [if_neg hi]; exact h

theorem statsStep_foldl_preserves_none (pf : String → Option Rat) (now : Nat)
    (fails : StatIn → Bool) (i : Nat) (l : List StatIn) :
    ∀ acc : Table PlayerRow × Nat × Nat, acc.1 i = none →
      ((l.foldl (statsStep pf now fails) acc).1) i = none := by
  induction l with
  | nil => intro acc h; exact h
  | cons x xs ih =>
    intro acc h
    rw [List.foldl_cons]
    refine ih _ ?_
    unfold statsStep
    by_cases hx : fails x = true
    · rw [if_pos hx]; exact h
    · rw [if_neg hx]; exact applyStatUpdate_none pf now acc.1 x i h

theorem updatePlayerStats_spec (pf : String → Option Rat) (now : Nat) (fails : StatIn → Bool)
    (tbl : Table PlayerRow) (l : List StatIn) :
    (updatePlayerStats pf now fails tbl l).updateCount = l.countP (fun e => !fails e) ∧
    (updatePlayerStats pf now fails tbl l).errorCount = l.countP (fun e => fails e) ∧
    (updatePlayerStats pf now fails tbl l).err =
      (if 0 < l.countP (fun e => fails e) then
        some (Err.partialBatch (l.countP (fun e => fails e))) else none) := by
  have h := statsStep_foldl_counts pf now fails l tbl 0 0
  unfold updatePlayerStats
  exact ⟨by simpa using h.1, by simpa using h.2, by simp only [h.2, Nat.zero_add]⟩

theorem foldl_mergeTeam_apply (now : Nat) (l : List TeamIn) :
    ∀ (tbl : Table TeamRow) (i : Nat),
      (l.foldl (mergeTeam now) tbl) i =
        match lastWith (fun t => t.id == i) l with
        | some t => some { data := coerceTeam t, last_updated := now }
        | none => tbl i := by
  induction l with
  | nil => intro tbl i; rfl
  | cons t xs ih =>
    intro tbl i
    rw [List.foldl_cons, ih]
    cases hl : lastWith (fun q => q.id == i) xs with
    | some y => simp only [lastWith, hl]
    | none =>
      simp only [lastWith, hl]
      by_cases hid : t.id = i
      · subst hid
        simp [mergeTeam]
      · have hid2 : ¬ t.id == i := by simpa using hid
        have hid3 : ¬ i = t.id := fun h => hid h.symm
        simp [mergeTeam, hid2, hid3]

theorem mergePlayer_frozen (pf : String → Option Rat) (now : Nat) (p : PlayerIn) (i : Nat)
    (h : ¬ i = p.id) (tbl : Table PlayerRow) : mergePlayer pf now tbl p i = tbl i := by
  simp only [mergePlayer]; rw [if_neg h]

theorem foldl_mergePlayer_apply (pf : String → Option Rat) (now : Nat) (l : List PlayerIn) :
    ∀ (tbl : Table PlayerRow) (i : Nat),
      (lastWith (fun p => p.id == i) l = none →
        (l.foldl (mergePlayer pf now) tbl) i = tbl i) ∧
      (∀ q old, lastWith (fun p => p.id == i) l = some q → tbl i = some old →
        (l.foldl (mergePlayer pf now) tbl) i =
          some { ref := coercePlayerRef pf q, code := old.code, stats := old.stats
                 last_updated := now }) ∧
      (∀ q, lastWith (fun p => p.id == i) l = some q → tbl i = none →
        ∃ c, (l.foldl (mergePlayer pf now) tbl) i =
          some { ref := coercePlayerRef pf q, code := c, stats := defaultStatsCols
                 last_updated := now }) := by
  induction l with
  | nil =>
    intro tbl i
    exact ⟨fun _ => rfl, fun q old h => by simp [lastWith] at h,
      fun q h => by simp [lastWith] at h⟩
  | cons p xs ih =>
    intro tbl i
    obtain ⟨ih1, ih2, ih3⟩ := ih (mergePlayer pf now tbl p) i
    refine ⟨?_, ?_, ?_⟩
    · intro hnone
      have hxs : lastWith (fun q => q.id == i) xs = none := by
        revert hnone
        simp only [lastWith]
        cases lastWith (fun q => q.id == i) xs with
        | some y => intro h; exact absurd h (by simp)
        | none => intro _; rfl
      have hp : ¬ (p.id == i) = true := by
        intro hbeq
        rw [lastWith, hxs] at hnone
        simp only [hbeq, if_true] at hnone
        exact absurd hnone (by simp)
      have hpi : ¬ i = p.id := fun h => hp (by simp [h])
      rw [List.foldl_cons, ih1 hxs]
      exact mergePlayer_frozen pf now p i hpi tbl
    · intro q old hsome hold
      rw [List.foldl_cons]
      cases hxs : lastWith (fun x => x.id == i) xs with
      | some y =>
        have hq : y = q := by
          rw [lastWith, hxs] at hsome
          exact Option.some_injective _ hsome
        subst hq
        by_cases hpi : i = p.id
        · have htblp : (mergePlayer pf now tbl p) i =
              some { ref := coercePlayerRef pf p, code := old.code, stats := old.stats
                     last_updated := now } := by
            simp only [mergePlayer]
            rw [if_pos hpi, ← hpi, hold]
          exact ih2 y { ref := coercePlayerRef pf p, code := old.code, stats := old.stats
                        last_updated := now } hxs htblp
        · have htblp : (mergePlayer pf now tbl p) i = some old := by
            rw [mergePlayer_frozen pf now p i hpi tbl]; exact hold
          exact ih2 y old hxs htblp
      | none =>
        have hpq : (p.id == i) = true ∧ p = q := by
          rw [lastWith, hxs] at hsome
          by_cases h : (p.id == i) = true
          · rw [if_pos h] at hsome
            exact ⟨h, Option.some_injective _ hsome⟩
          · rw [if_neg h] at hsome
            exact absurd hsome (by simp)
        obtain ⟨hpibeq, rfl⟩ := hpq
        have hpi : i = p.id := (by simpa using hpibeq : p.id = i).symm
        have htblp : (mergePlayer pf now tbl p) i =
            some { ref := coercePlayerRef pf p, code := old.code, stats := old.stats
                   last_updated := now } := by
          simp only [mergePlayer]
          rw [if_pos hpi, ← hpi, hold]
        rw [ih1 hxs]
        exact htblp
    · intro q hsome hnone
      rw [List.foldl_cons]
      cases hxs : lastWith (fun x => x.id == i) xs with
      | some y =>
        have hq : y = q := by
          rw [lastWith, hxs] at hsome
          exact Option.some_injective _ hsome
        subst hq
        by_cases hpi : i = p.id
        · have htblp : (mergePlayer pf now tbl p) i =
              some { ref := coercePlayerRef pf p, code := p.code, stats := defaultStatsCols
                     last_updated := now } := by
            simp only [mergePlayer]
            rw [if_pos hpi, ← hpi, hnone]
          exact ⟨p.code, ih2 y { ref := coercePlayerRef pf p, code := p.code
                                 stats := defaultStatsCols, last_updated := now } hxs htblp⟩
        · have htblp : (mergePlayer pf now tbl p) i = none := by
            rw [mergePlayer_frozen pf now p i hpi tbl]; exact hnone
          exact ih3 y hxs htblp
      | none =>
        have hpq : (p.id == i) = true ∧ p = q := by
          rw [lastWith, hxs] at hsome
          by_cases h : (p.id == i) = true
          · rw [if_pos h] at hsome
            exact ⟨h, Option.some_injective _ hsome⟩
          · rw [if_neg h] at hsome
            exact absurd hsome (by simp)
        obtain ⟨hpibeq, rfl⟩ := hpq
        have hpi : i = p.id := (by simpa using hpibeq : p.id = i).symm
        have htblp : (mergePlayer pf now tbl p) i =
            some { ref := coercePlayerRef pf p, code := p.code, stats := defaultStatsCols
                   last_updated := now } := by
          simp only [mergePlayer]
          rw [if_pos hpi, ← hpi, hnone]
        refine ⟨p.code, ?_⟩
        rw [ih1 hxs]
        exact htblp

/-- C7: merge-upsert is idempotent.  For any failure-free run, applying the
same team snapshot (resp. player snapshot) twice in succession — possibly
at different clock values — leaves every persisted row identical to the
state after the first application, except for the `last_updated` timestamp
column. -/
theorem mergeUpsert_idempotent (pf : String → Option Rat) (t1 t2 : Nat)
    (tf : TeamIn → Bool) (plf : PlayerIn → Bool)
    (teams : List TeamIn) (players : List PlayerIn)
    (ttbl : Table TeamRow) (ptbl : Table PlayerRow)
    (hT : ∀ t ∈ teams, tf t = false) (hP : ∀ p ∈ players, plf p = false) :
    ((updateTeams t1 tf ttbl teams).2 = none ∧
      (updateTeams t2 tf (updateTeams t1 tf ttbl teams).1 teams).2 = none ∧
      ∀ i, ((updateTeams t2 tf (updateTeams t1 tf ttbl teams).1 teams).1 i).map TeamRow.data =
        ((updateTeams t1 tf ttbl teams).1 i).map TeamRow.data) ∧
    ((updatePlayers pf t1 plf ptbl players).2 = none ∧
      (updatePlayers pf t2 plf (updatePlayers pf t1 plf ptbl players).1 players).2 = none ∧
      ∀ i, ((updatePlayers pf t2 plf (updatePlayers pf t1 plf ptbl players).1 players).1 i).map
          PlayerRow.stripTs =
        ((updatePlayers pf t1 plf ptbl players).1 i).map PlayerRow.stripTs) := by
  have eT1 := runUpsert_noFail (mergeTeam t1) tf Tag.teams (fun t => t.id) teams ttbl hT
  have eP1 := runUpsert_noFail (mergePlayer pf t1) plf Tag.players (fun p => p.id) players ptbl hP
  constructor
  · rw [updateTeams, eT1]
    have eT2 := runUpsert_noFail (mergeTeam t2) tf Tag.teams (fun t => t.id) teams
      (teams.foldl (mergeTeam t1) ttbl) hT
    rw [updateTeams, eT2]
    refine ⟨rfl, rfl, ?_⟩
    intro i
    dsimp only
    rw [foldl_mergeTeam_apply t2 teams, foldl_mergeTeam_apply t1 teams]
    cases hl : lastWith (fun t => t.id == i) teams with
    | some t => simp
    | none => rfl
  · rw [updatePlayers, eP1]
    have eP2 := runUpsert_noFail (mergePlayer pf t2) plf Tag.players (fun p => p.id) players
      (players.foldl (mergePlayer pf t1) ptbl) hP
    rw [updatePlayers, eP2]
    refine ⟨rfl, rfl, ?_⟩
    intro i
    dsimp only
    obtain ⟨c11, c12, c13⟩ := foldl_mergePlayer_apply pf t1 players ptbl i
    obtain ⟨c21, c22, c23⟩ :=
      foldl_mergePlayer_apply pf t2 players (players.foldl (mergePlayer pf t1) ptbl) i
    cases hl : lastWith (fun p => p.id == i) players with
    | none => rw [c21 hl]
    | some q =>
      cases hold : ptbl i with
      | some old =>
        have h1 := c12 q old hl hold
        have h2 := c22 q { ref := coercePlayerRef pf q, code := old.code, stats := old.stats
                           last_updated := t1 } hl h1
        rw [h1, h2]
        rfl
      | none =>
        obtain ⟨c, h1⟩ := c13 q hl hold
        have h2 := c22 q { ref := coercePlayerRef pf q, code := c, stats := defaultStatsCols
                           last_updated := t1 } hl h1
        rw [h1, h2]
        rfl

/-- C7 witness: a concrete failure-free double application on one team and
one player, compared at the key of the team record. -/
theorem mergeUpsert_idempotent_witness :
    ((updateTeams 1 (fun _ => false) emptyDb.teams [team0]).2 = none ∧
      (updateTeams 2 (fun _ => false)
        (updateTeams 1 (fun _ => false) emptyDb.teams [team0]).1 [team0]).2 = none ∧
      ∀ i, ((updateTeams 2 (fun _ => false)
          (updateTeams 1 (fun _ => false) emptyDb.teams [team0]).1 [team0]).1 i).map
          TeamRow.data =
        ((updateTeams 1 (fun _ => false) emptyDb.teams [team0]).1 i).map TeamRow.data) ∧
    ((updatePlayers (fun _ => none) 1 (fun _ => false) emptyDb.players [player0]).2 = none ∧
      (updatePlayers (fun _ => none) 2 (fun _ => false)
        (updatePlayers (fun _ => none) 1 (fun _ => false) emptyDb.players [player0]).1
        [player0]).2 = none ∧
      ∀ i, ((updatePlayers (fun _ => none) 2 (fun _ => false)
          (updatePlayers (fun _ => none) 1 (fun _ => false) emptyDb.players [player0]).1
          [player0]).1 i).map PlayerRow.stripTs =
        ((updatePlayers (fun _ => none) 1 (fun _ => false) emptyDb.players [player0]).1 i).map
          PlayerRow.stripTs) :=
  mergeUpsert_idempotent (fun _ => none) 1 2 (fun _ => false) (fun _ => false)
    [team0] [player0] emptyDb.teams emptyDb.players (by decide) (by decide)

theorem lastWith_eq_none {α : Type} (p : α → Bool) :
    ∀ l : List α, (∀ x ∈ l, p x = false) → lastWith p l = none := by
  intro l
  induction l with
  | nil => intro _; rfl
  | cons x xs ih =>
    intro h
    rw [lastWith, ih fun y hy => h y (List.mem_cons_of_mem x hy)]
    simp [h x (List.mem_cons_self x xs)]

theorem updateDatabase_noRefFail (cfg : RunCfg) (db : Db) (bs : Bootstrap)
    (gw : GameweekData) (fx : List FixtureIn) (hconn : cfg.connectOk = true)
    (h : NoRefFailures cfg bs fx) :
    updateDatabase cfg db bs gw fx =
      { db := { teams := bs.teams.foldl (mergeTeam cfg.now) db.teams
                element_types :=
                  bs.element_types.foldl (mergeElementType cfg.now) db.element_types
                events := bs.events.foldl (mergeEvent cfg.now) db.events
                fixtures := fx.foldl (mergeFixture cfg.now) db.fixtures
                players := (updatePlayerStats cfg.pf cfg.now cfg.statFail
                  (bs.elements.foldl (mergePlayer cfg.pf cfg.now) db.players) gw.elements).db }
        log := canonicalOrder
        err := (updatePlayerStats cfg.pf cfg.now cfg.statFail
          (bs.elements.foldl (mergePlayer cfg.pf cfg.now) db.players) gw.elements).err } := by
  obtain ⟨h1, h2, h3, h4, h5⟩ := h
  unfold updateDatabase
  rw [hconn]
  simp only [Bool.true_eq_false, if_false]
  rw [show updateTeams cfg.now cfg.teamFail db.teams bs.teams =
      (bs.teams.foldl (mergeTeam cfg.now) db.teams, none) from
    runUpsert_noFail _ _ _ _ _ _ h1]
  dsimp only
  rw [show updateElementTypes cfg.now cfg.etFail db.element_types bs.element_types =
      (bs.element_types.foldl (mergeElementType cfg.now) db.element_types, none) from
    runUpsert_noFail _ _ _ _ _ _ h2]
  dsimp only
  rw [show updateEvents cfg.now cfg.evFail db.events bs.events =
      (bs.events.foldl (mergeEvent cfg.now) db.events, none) from
    runUpsert_noFail _ _ _ _ _ _ h3]
  dsimp only
  rw [show updateFixtures cfg.now cfg.fxFail db.fixtures fx =
      (fx.foldl (mergeFixture cfg.now) db.fixtures, none) from
    runUpsert_noFail _ _ _ _ _ _ h4]
  dsimp only
  rw [show updatePlayers cfg.pf cfg.now cfg.plFail db.players bs.elements =
      (bs.elements.foldl (mergePlayer cfg.pf cfg.now) db.players, none) from
    runUpsert_noFail _ _ _ _ _ _ h5]

theorem mainRun_writePath (cfg : RunCfg) (db : Db) (evs : List EventIn)
    (fxl : List FixtureIn) (bs : Bootstrap) (gw : GameweekData) (fx : List FixtureIn)
    (hlive : checkIfGameIsLive evs fxl = true)
    (hvalid : (validateData bs gw fx).ok = true)
    (hconn : cfg.connectOk = true) (hrefs : NoRefFailures cfg bs fx) :
    (mainRun cfg db evs fxl bs gw fx).1 =
      (if 0 < gw.elements.countP (fun e => cfg.statFail e) then 1 else 0) ∧
    (mainRun cfg db evs fxl bs gw fx).2.players =
      (updatePlayerStats cfg.pf cfg.now cfg.statFail
        (bs.elements.foldl (mergePlayer cfg.pf cfg.now) db.players) gw.elements).db := by
  have hdb := updateDatabase_noRefFail cfg db bs gw fx hconn hrefs
  have hspec := updatePlayerStats_spec cfg.pf cfg.now cfg.statFail
    (bs.elements.foldl (mergePlayer cfg.pf cfg.now) db.players) gw.elements
  unfold mainRun
  rw [hlive, hvalid, hdb]
  simp only [Bool.true_eq_false, if_false]
  rw [hspec.2.2]
  by_cases hk : 0 < gw.elements.countP (fun e => cfg.statFail e)
  · rw [if_pos hk, if_pos hk]
    exact ⟨rfl, rfl⟩
  · rw [if_neg hk, if_neg hk]
    exact ⟨rfl, rfl⟩

/-- C2: the live-stats batch is best-effort.  For any run that reaches the
stats phase (live, valid, connected, reference upserts clean) and any
per-row failure pattern with K failing rows out of N: every row is
attempted (successes plus failures add up to N), exactly N − K rows are
updated, and after the whole batch the engine raises
`Failed to update K players` iff K > 0 — in which case the run exits 1
even though N − K rows succeeded, and exits 0 otherwise. -/
theorem updatePlayerStats_bestEffortBatch (cfg : RunCfg) (db : Db) (evs : List EventIn)
    (fxl : List FixtureIn) (bs : Bootstrap) (gw : GameweekData) (fx : List FixtureIn)
    (hlive : checkIfGameIsLive evs fxl = true)
    (hvalid : (validateData bs gw fx).ok = true)
    (hconn : cfg.connectOk = true) (hrefs : NoRefFailures cfg bs fx) :
    (∀ tbl : Table PlayerRow,
      (updatePlayerStats cfg.pf cfg.now cfg.statFail tbl gw.elements).updateCount =
        gw.elements.length - gw.elements.countP (fun e => cfg.statFail e) ∧
      (updatePlayerStats cfg.pf cfg.now cfg.statFail tbl gw.elements).updateCount +
        (updatePlayerStats cfg.pf cfg.now cfg.statFail tbl gw.elements).errorCount =
        gw.elements.length ∧
      ((updatePlayerStats cfg.pf cfg.now cfg.statFail tbl gw.elements).err = none ↔
        gw.elements.countP (fun e => cfg.statFail e) = 0) ∧
      (0 < gw.elements.countP (fun e => cfg.statFail e) →
        (updatePlayerStats cfg.pf cfg.now cfg.statFail tbl gw.elements).err =
          some (Err.partialBatch (gw.elements.countP (fun e => cfg.statFail e))))) ∧
    (mainRun cfg db evs fxl bs gw fx).1 =
      (if 0 < gw.elements.countP (fun e => cfg.statFail e) then 1 else 0) := by
  refine ⟨?_, (mainRun_writePath cfg db evs fxl bs gw fx hlive hvalid hconn hrefs).1⟩
  intro tbl
  obtain ⟨hu, he, herr⟩ := updatePlayerStats_spec cfg.pf cfg.now cfg.statFail tbl gw.elements
  have hsum := countP_not_add_countP (fun e => cfg.statFail e) gw.elements
  refine ⟨by rw [hu]; omega, by rw [hu, he]; omega, ?_, fun hk => by rw [herr, if_pos hk]⟩
  rw [herr]
  by_cases hk : 0 < gw.elements.countP (fun e => cfg.statFail e)
  · rw [if_pos hk]; constructor
    · intro h; exact absurd h (by simp)
    · intro h; omega
  · rw [if_neg hk]; constructor
    · intro _; omega
    · intro _; rfl

/-- C2 witness: a two-row batch where the write for player 6 fails — the
run exits 1 (here `countP` evaluates to 1, so the right-hand side is 1). -/
theorem updatePlayerStats_bestEffortBatch_witness :
    (mainRun cfgStatFail emptyDb [ev0] fx0 bs0 gw2 fx0).1 =
      (if 0 < gw2.elements.countP (fun e => cfgStatFail.statFail e) then 1 else 0) :=
  (updatePlayerStats_bestEffortBatch cfgStatFail emptyDb [ev0] fx0 bs0 gw2 fx0
    (by decide) (by decide) (by decide) (by decide)).2

theorem validateData_teamWarn (bs : Bootstrap) (gw : GameweekData) (fx : List FixtureIn)
    (hhard : hardRulesPass bs gw fx) (h20 : bs.teams.length ≠ expectedTeamsCount) :
    "Warning: unexpected team count" ∈ (validateData bs gw fx).warnings := by
  obtain ⟨h1, h2, h3, h4, h5, h6, h7⟩ := hhard
  unfold validateData
  repeat' split
  all_goals simp_all [List.isEmpty_iff, minPlayersCount, expectedTeamsCount]

/-- C9: a snapshot whose (non-empty) team list does not have 20 entries,
but which satisfies the hard rules, passes validation with the team-count
deviation surfacing only as a warning, and the run proceeds to the write
path — its outcome is exactly the outcome of `updateDatabase`. -/
theorem nonStandardTeamCount_passes (cfg : RunCfg) (db : Db) (evs : List EventIn)
    (fxl : List FixtureIn) (bs : Bootstrap) (gw : GameweekData) (fx : List FixtureIn)
    (hhard : hardRulesPass bs gw fx)
    (h20 : bs.teams.length ≠ expectedTeamsCount)
    (hlive : checkIfGameIsLive evs fxl = true) :
    (validateData bs gw fx).ok = true ∧
    "Warning: unexpected team count" ∈ (validateData bs gw fx).warnings ∧
    mainRun cfg db evs fxl bs gw fx =
      (match (updateDatabase cfg db bs gw fx).err with
        | some _ => (1, (updateDatabase cfg db bs gw fx).db)
        | none => (0, (updateDatabase cfg db bs gw fx).db)) := by
  have hv := (validateData_ok_iff bs gw fx).mpr hhard
  refine ⟨hv, validateData_teamWarn bs gw fx hhard h20, ?_⟩
  simp only [mainRun, hlive, hv, Bool.true_eq_false, if_false]

/-- C9 witness: a 21-team snapshot passes validation with the warning and
reaches the write path. -/
theorem nonStandardTeamCount_passes_witness :
    (validateData bs0 gw0 fx0).ok = true ∧
    "Warning: unexpected team count" ∈ (validateData bs0 gw0 fx0).warnings ∧
    mainRun cfg0 emptyDb [ev0] fx0 bs0 gw0 fx0 =
      (match (updateDatabase cfg0 emptyDb bs0 gw0 fx0).err with
        | some _ => (1, (updateDatabase cfg0 emptyDb bs0 gw0 fx0).db)
        | none => (0, (updateDatabase cfg0 emptyDb bs0 gw0 fx0).db)) :=
  nonStandardTeamCount_passes cfg0 emptyDb [ev0] fx0 bs0 gw0 fx0
    (by decide) (by decide) (by decide)

/-- C10: a live-stat row whose player id matches no row of the players
table completes without error — the targeted UPDATE affects zero rows and
the table is left unchanged at that id — and it is counted as a success;
with no SQL failures the whole batch reports zero errors, so a run whose
reference data never mentions that id still exits 0 even though the row's
stats were never persisted. -/
theorem unmatchedStatRow_succeeds (cfg : RunCfg) (db : Db) (evs : List EventIn)
    (fxl : List FixtureIn) (bs : Bootstrap) (gw : GameweekData) (fx : List FixtureIn)
    (e : StatIn) (hmem : e ∈ gw.elements)
    (hstatok : ∀ x ∈ gw.elements, cfg.statFail x = false)
    (hnomatch : db.players e.id = none)
    (hnoref : ∀ p ∈ bs.elements, p.id ≠ e.id)
    (hlive : checkIfGameIsLive evs fxl = true)
    (hvalid : (validateData bs gw fx).ok = true)
    (hconn : cfg.connectOk = true) (hrefs : NoRefFailures cfg bs fx) :
    (∀ tbl : Table PlayerRow, tbl e.id = none →
      (updatePlayerStats cfg.pf cfg.now cfg.statFail tbl gw.elements).db e.id = none ∧
      (updatePlayerStats cfg.pf cfg.now cfg.statFail tbl gw.elements).errorCount = 0 ∧
      (updatePlayerStats cfg.pf cfg.now cfg.statFail tbl gw.elements).err = none ∧
      (updatePlayerStats cfg.pf cfg.now cfg.statFail tbl gw.elements).updateCount =
        gw.elements.length) ∧
    (mainRun cfg db evs fxl bs gw fx).1 = 0 ∧
    (mainRun cfg db evs fxl bs gw fx).2.players e.id = none := by
  have hK : gw.elements.countP (fun x => cfg.statFail x) = 0 := by
    rw [List.countP_eq_zero]
    intro a ha
    simp [hstatok a ha]
  have hinner : ∀ tbl : Table PlayerRow, tbl e.id = none →
      (updatePlayerStats cfg.pf cfg.now cfg.statFail tbl gw.elements).db e.id = none ∧
      (updatePlayerStats cfg.pf cfg.now cfg.statFail tbl gw.elements).errorCount = 0 ∧
      (updatePlayerStats cfg.pf cfg.now cfg.statFail tbl gw.elements).err = none ∧
      (updatePlayerStats cfg.pf cfg.now cfg.statFail tbl gw.elements).updateCount =
        gw.elements.length := by
    intro tbl htbl
    obtain ⟨hu, he, herr⟩ := updatePlayerStats_spec cfg.pf cfg.now cfg.statFail tbl gw.elements
    have hsum := countP_not_add_countP (fun x => cfg.statFail x) gw.elements
    refine ⟨?_, by rw [he, hK], by rw [herr, hK]; simp, by rw [hu]; omega⟩
    exact statsStep_foldl_preserves_none cfg.pf cfg.now cfg.statFail e.id gw.elements
      (tbl, 0, 0) htbl
  have hw := mainRun_writePath cfg db evs fxl bs gw fx hlive hvalid hconn hrefs
  refine ⟨hinner, ?_, ?_⟩
  · rw [hw.1, hK]
    simp
  · rw [hw.2]
    have hlw : lastWith (fun p => p.id == e.id) bs.elements = none :=
      lastWith_eq_none _ bs.elements fun p hp => by simpa using hnoref p hp
    have hfold : (bs.elements.foldl (mergePlayer cfg.pf cfg.now) db.players) e.id = none := by
      obtain ⟨c1, -, -⟩ :=
        foldl_mergePlayer_apply cfg.pf cfg.now bs.elements db.players e.id
      rw [c1 hlw]
      exact hnomatch
    exact (hinner _ hfold).1

/-- C10 witness: the live-stat row for player 5 matches nothing (the
reference snapshot only contains player 1000), yet the run exits 0 and
player 5 still has no row afterwards. -/
theorem unmatchedStatRow_succeeds_witness :
    (mainRun cfg0 emptyDb [ev0] fx0 bs0 gw0 fx0).1 = 0 ∧
    (mainRun cfg0 emptyDb [ev0] fx0 bs0 gw0 fx0).2.players stat5.id = none :=
  (unmatchedStatRow_succeeds cfg0 emptyDb [ev0] fx0 bs0 gw0 fx0 stat5
    (by decide) (by decide) (by decide) (by decide) (by decide) (by decide)
    (by decide) (by decide)).2

theorem updatePlayerStats_err_not_refFail (pf : String → Option Rat) (now : Nat)
    (fails : StatIn → Bool) (tbl : Table PlayerRow) (l : List StatIn) (tg : Tag) (j : Nat) :
    (updatePlayerStats pf now fails tbl l).err ≠ some (Err.refFail tg j) := by
  rw [(updatePlayerStats_spec pf now fails tbl l).2.2]
  split <;> simp

/-- C6: writes are issued in dependency order — the phase log is always a
prefix of `[teams, elementTypes, events, fixtures, players, playerStats]`
and equals it exactly when the run succeeds; an exception raised inside a
reference upsert makes its own table the last phase entered (the
live-stats phase in particular never runs after one), and every phase that
was never entered leaves its table untouched. -/
theorem updateDatabase_dependencyOrder (cfg : RunCfg) (db : Db) (bs : Bootstrap)
    (gw : GameweekData) (fx : List FixtureIn) :
    ((updateDatabase cfg db bs gw fx).log =
      canonicalOrder.take (updateDatabase cfg db bs gw fx).log.length) ∧
    ((updateDatabase cfg db bs gw fx).err = none →
      (updateDatabase cfg db bs gw fx).log = canonicalOrder) ∧
    (∀ tg j, (updateDatabase cfg db bs gw fx).err = some (Err.refFail tg j) →
      (updateDatabase cfg db bs gw fx).log.getLast? = some tg ∧
      Tag.playerStats ∉ (updateDatabase cfg db bs gw fx).log) ∧
    (Tag.teams ∉ (updateDatabase cfg db bs gw fx).log →
      (updateDatabase cfg db bs gw fx).db.teams = db.teams) ∧
    (Tag.elementTypes ∉ (updateDatabase cfg db bs gw fx).log →
      (updateDatabase cfg db bs gw fx).db.element_types = db.element_types) ∧
    (Tag.events ∉ (updateDatabase cfg db bs gw fx).log →
      (updateDatabase cfg db bs gw fx).db.events = db.events) ∧
    (Tag.fixtures ∉ (updateDatabase cfg db bs gw fx).log →
      (updateDatabase cfg db bs gw fx).db.fixtures = db.fixtures) ∧
    (Tag.players ∉ (updateDatabase cfg db bs gw fx).log →
      (updateDatabase cfg db bs gw fx).db.players = db.players) := by
  by_cases hc : cfg.connectOk = false
  · have hr : updateDatabase cfg db bs gw fx =
        { db := db, log := [], err := some Err.connectFailed } := by
      unfold updateDatabase; rw [if_pos hc]
    rw [hr]
    refine ⟨rfl, ?_, ?_, fun _ => rfl, fun _ => rfl, fun _ => rfl, fun _ => rfl, fun _ => rfl⟩
    · intro h; simp at h
    · intro tg j h; simp at h
  · rcases hT : updateTeams cfg.now cfg.teamFail db.teams bs.teams with ⟨tT, e1⟩
    cases e1 with
    | some er =>
      have hsnd : (updateTeams cfg.now cfg.teamFail db.teams bs.teams).2 = some er := by
        rw [hT]
      obtain ⟨j0, rfl⟩ := runUpsert_err_shape (mergeTeam cfg.now) cfg.teamFail Tag.teams
        (fun t => t.id) bs.teams db.teams er hsnd
      have hr : updateDatabase cfg db bs gw fx =
          { db := { db with teams := tT }, log := [Tag.teams]
            err := some (Err.refFail Tag.teams j0) } := by
        unfold updateDatabase; rw [if_neg hc, hT]
      rw [hr]
      refine ⟨rfl, ?_, ?_, ?_, fun _ => rfl, fun _ => rfl, fun _ => rfl, fun _ => rfl⟩
      · intro h; simp at h
      · intro tg j h
        simp only [Option.some.injEq, Err.refFail.injEq] at h
        obtain ⟨h1, -⟩ := h
        subst h1
        exact ⟨rfl, by simp⟩
      · intro h; simp at h
    | none =>
      rcases hE : updateElementTypes cfg.now cfg.etFail db.element_types bs.element_types
        with ⟨tE, e2⟩
      cases e2 with
      | some er =>
        have hsnd : (updateElementTypes cfg.now cfg.etFail db.element_types
            bs.element_types).2 = some er := by rw [hE]
        obtain ⟨j0, rfl⟩ := runUpsert_err_shape (mergeElementType cfg.now) cfg.etFail
          Tag.elementTypes (fun t => t.id) bs.element_types db.element_types er hsnd
        have hr : updateDatabase cfg db bs gw fx =
            { db := { db with teams := tT, element_types := tE }
              log := [Tag.teams, Tag.elementTypes]
              err := some (Err.refFail Tag.elementTypes j0) } := by
          unfold updateDatabase; rw [if_neg hc, hT]; dsimp only; rw [hE]
        rw [hr]
        refine ⟨rfl, ?_, ?_, ?_, ?_, fun _ => rfl, fun _ => rfl, fun _ => rfl⟩
        · intro h; simp at h
        · intro tg j h
          simp only [Option.some.injEq, Err.refFail.injEq] at h
          obtain ⟨h1, -⟩ := h
          subst h1
          exact ⟨rfl, by simp⟩
        · intro h; simp at h
        · intro h; simp at h
      | none =>
        rcases hV : updateEvents cfg.now cfg.evFail db.events bs.events with ⟨tV, e3⟩
        cases e3 with
        | some er =>
          have hsnd : (updateEvents cfg.now cfg.evFail db.events bs.events).2 = some er := by
            rw [hV]
          obtain ⟨j0, rfl⟩ := runUpsert_err_shape (mergeEvent cfg.now) cfg.evFail
            Tag.events (fun e => e.id) bs.events db.events er hsnd
          have hr : updateDatabase cfg db bs gw fx =
              { db := { db with teams := tT, element_types := tE, events := tV }
                log := [Tag.teams, Tag.elementTypes, Tag.events]
                err := some (Err.refFail Tag.events j0) } := by
            unfold updateDatabase; rw [if_neg hc, hT]; dsimp only; rw [hE]; dsimp only
            rw [hV]
          rw [hr]
          refine ⟨rfl, ?_, ?_, ?_, ?_, ?_, fun _ => rfl, fun _ => rfl⟩
          · intro h; simp at h
          · intro tg j h
            simp only [Option.some.injEq, Err.refFail.injEq] at h
            obtain ⟨h1, -⟩ := h
            subst h1
            exact ⟨rfl, by simp⟩
          · intro h; simp at h
          · intro h; simp at h
          · intro h; simp at h
        | none =>
          rcases hF : updateFixtures cfg.now cfg.fxFail db.fixtures fx with ⟨tF, e4⟩
          cases e4 with
          | some er =>
            have hsnd : (updateFixtures cfg.now cfg.fxFail db.fixtures fx).2 = some er := by
              rw [hF]
            obtain ⟨j0, rfl⟩ := runUpsert_err_shape (mergeFixture cfg.now) cfg.fxFail
              Tag.fixtures (fun f => f.id) fx db.fixtures er hsnd
            have hr : updateDatabase cfg db bs gw fx =
                { db :=
                    { db with
                      teams := tT
                      element_types := tE
                      events := tV
                      fixtures := tF }
                  log := [Tag.teams, Tag.elementTypes, Tag.events, Tag.fixtures]
                  err := some (Err.refFail Tag.fixtures j0) } := by
              unfold updateDatabase; rw [if_neg hc, hT]; dsimp only; rw [hE]; dsimp only
              rw [hV]; dsimp only; rw [hF]
            rw [hr]
            refine ⟨rfl, ?_, ?_, ?_, ?_, ?_, ?_, fun _ => rfl⟩
            · intro h; simp at h
            · intro tg j h
              simp only [Option.some.injEq, Err.refFail.injEq] at h
              obtain ⟨h1, -⟩ := h
              subst h1
              exact ⟨rfl, by simp⟩
            · intro h; simp at h
            · intro h; simp at h
            · intro h; simp at h
            · intro h; simp at h
          | none =>
            rcases hP : updatePlayers cfg.pf cfg.now cfg.plFail db.players bs.elements
              with ⟨tP, e5⟩
            cases e5 with
            | some er =>
              have hsnd : (updatePlayers cfg.pf cfg.now cfg.plFail db.players
                  bs.elements).2 = some er := by rw [hP]
              obtain ⟨j0, rfl⟩ := runUpsert_err_shape (mergePlayer cfg.pf cfg.now) cfg.plFail
                Tag.players (fun p => p.id) bs.elements db.players er hsnd
              have hr : updateDatabase cfg db bs gw fx =
                  { db :=
                      { db with
                        teams := tT
                        element_types := tE
                        events := tV
                        fixtures := tF
                        players := tP }
                    log := [Tag.teams, Tag.elementTypes, Tag.events, Tag.fixtures, Tag.players]
                    err := some (Err.refFail Tag.players j0) } := by
                unfold updateDatabase; rw [if_neg hc, hT]; dsimp only; rw [hE]; dsimp only
                rw [hV]; dsimp only; rw [hF]; dsimp only; rw [hP]
              rw [hr]
              refine ⟨rfl, ?_, ?_, ?_, ?_, ?_, ?_, ?_⟩
              · intro h; simp at h
              · intro tg j h
                simp only [Option.some.injEq, Err.refFail.injEq] at h
                obtain ⟨h1, -⟩ := h
                subst h1
                exact ⟨rfl, by simp⟩
              · intro h; simp at h
              · intro h; simp at h
              · intro h; simp at h
              · intro h; simp at h
              · intro h; simp at h
            | none =>
              have hr : updateDatabase cfg db bs gw fx =
                  { db :=
                      { db with
                        teams := tT
                        element_types := tE
                        events := tV
                        fixtures := tF
                        players := (updatePlayerStats cfg.pf cfg.now cfg.statFail tP
                          gw.elements).db }
                    log := canonicalOrder
                    err := (updatePlayerStats cfg.pf cfg.now cfg.statFail tP
                      gw.elements).err } := by
                unfold updateDatabase; rw [if_neg hc, hT]; dsimp only; rw [hE]; dsimp only
                rw [hV]; dsimp only; rw [hF]; dsimp only; rw [hP]
              rw [hr]
              refine ⟨rfl, fun _ => rfl, ?_, ?_, ?_, ?_, ?_, ?_⟩
              · intro tg j h
                exact absurd h (updatePlayerStats_err_not_refFail _ _ _ _ _ _ _)
              · intro h; exact absurd (by decide : Tag.teams ∈ canonicalOrder) h
              · intro h; exact absurd (by decide : Tag.elementTypes ∈ canonicalOrder) h
              · intro h; exact absurd (by decide : Tag.events ∈ canonicalOrder) h
              · intro h; exact absurd (by decide : Tag.fixtures ∈ canonicalOrder) h
              · intro h; exact absurd (by decide : Tag.players ∈ canonicalOrder) h

/-- C6 witness: with every events-table write failing, the run stops at the
events phase — the fixtures table is untouched and the last phase entered
is `events`. -/
theorem updateDatabase_dependencyOrder_witness :
    (updateDatabase cfgEvFail emptyDb bs0 gw0 fx0).db.fixtures = emptyDb.fixtures ∧
    (updateDatabase cfgEvFail emptyDb bs0 gw0 fx0).log.getLast? = some Tag.events := by
  have h := updateDatabase_dependencyOrder cfgEvFail emptyDb bs0 gw0 fx0
  exact ⟨h.2.2.2.2.2.2.1 (by decide), (h.2.2.1 Tag.events 5 (by decide)).1⟩
